import Mathlib

set_option maxHeartbeats 1000000

/-!
Shallow embedding of the per-branch catalog service of the optica-yolanda2
repository.  The main model follows src/unnamed/part_000 (the fullest
implementation: branch set, admin gate, create/update/delete with conflict
checks, CSV export); src/server.js is modelled where the claims cite it
(safeBranch, readDb, requireAdmin) and src/unnamed/part_002 for its readJson.
Filesystem activity is made observable as an explicit effect trace, and each
endpoint handler becomes a pure function from the request, the ambient
configuration and the branch catalog read from disk to a response, the trace,
and the resulting persisted catalog.
-/

/-- Product record as stored in a branch catalog snapshot (part_000 create
handler, lines 85-96). -/
structure Product where
  id : String
  codigo : String
  nombre : String
  precio : String
  categoria : String
  oferta : Bool
  precioPromo : String
  img : String
  ts : Nat
  deriving DecidableEq, Repr

/-- Observable filesystem effects of one handler run. -/
inductive Eff where
  | readCatalog (branch : String)
  | writeCatalog (branch : String)
  | storeAsset (path : String)
  | unlinkAsset (path : String)
  deriving DecidableEq, Repr

/-- HTTP-level outcome of one handler run. -/
inductive Resp where
  | okCatalog (productos : List Product)
  | okProduct (p : Product)
  | okDeleted (p : Product)
  | okCsv (s : String)
  | err (status : Nat) (msg : String)
  deriving DecidableEq, Repr

/-- Result of running one operation: response, filesystem effect trace in
order, and the branch catalog as persisted afterwards. -/
structure OpResult where
  resp : Resp
  effects : List Eff
  catalog : List Product
  deriving DecidableEq, Repr

/-- Ambient configuration: the admin secret (part_000 line 20). -/
structure Config where
  adminKey : String
  deriving DecidableEq, Repr

/-- Allowed branch set, part_000 line 19: new Set(["central","fernando","caacupe"]). -/
def SUCURSALES : List String := ["central", "fernando", "caacupe"]

/-- ADMIN_KEY = process.env.ADMIN_KEY or the default "yolanda2025"
(part_000 line 20); a missing or empty environment value is falsy in JS and
selects the default. -/
def adminKeyOf (env : Option String) : String :=
  match env with
  | none => "yolanda2025"
  | some s => if s.isEmpty then "yolanda2025" else s

/-- Character-wise lower casing, modelling String.prototype.toLowerCase on the
ASCII-restricted data these handlers compare. -/
def strToLower (s : String) : String :=
  ⟨s.data.map Char.toLower⟩

/-- Replace every occurrence of the character c by the character list r,
modelling a global single-character regex replace. -/
def replaceAllChar (c : Char) (r : List Char) : List Char → List Char
  | [] => []
  | a :: as => if a == c then r ++ replaceAllChar c r as else a :: replaceAllChar c r as

/-- String form of replaceAllChar. -/
def strReplaceChar (c : Char) (r : String) (s : String) : String :=
  ⟨replaceAllChar c r.data s.data⟩

/-- Character membership test on a string, modelling String.prototype.includes
and regex character tests. -/
def hasChar (s : String) (c : Char) : Bool :=
  s.data.contains c

/-- JS truthiness of an optional string field of the request body: undefined
and the empty string are falsy. -/
def truthy : Option String → Bool
  | none => false
  | some s => !s.isEmpty

/-- checkAdmin middleware, part_000 lines 52-56: rejects when the x-admin-key
header is absent or falsy, or differs from ADMIN_KEY; true means next() runs. -/
def checkAdmin (cfg : Config) (k : Option String) : Bool :=
  match k with
  | none => false
  | some s => if s.isEmpty then false else s == cfg.adminKey

/-- Public path of a stored upload, part_000 line 94: /uploads/SUC/FILENAME. -/
def assetPath (suc filename : String) : String :=
  "/uploads/" ++ suc ++ "/" ++ filename

/-- Effect of a successful store by the multer upload middleware (part_000
lines 36-43): when the request carries a file part and the branch directory
exists, the file is written there before the route handler body runs; the
generated filename is a parameter.  The handlers below only reach this trace
when the directory exists, since diskStorage never creates directories. -/
def multerEffs (suc : String) : Option String → List Eff
  | none => []
  | some f => [Eff.storeAsset (assetPath suc f)]

/-- Create request as parsed by express for POST /upload/:sucursal.  The file
field is the multer-generated filename when an image part was uploaded. -/
structure CreateReq where
  sucursal : String
  adminKey : Option String
  file : Option String
  nombre : Option String
  precio : Option String
  categoria : Option String
  codigo : Option String
  oferta : Option String
  precioPromo : Option String
  deriving Repr

/-- Product record built by the create handler (part_000 lines 85-96). -/
def mkProduct (req : CreateReq) (idGen : String) (now : Nat) (f : String) : Product :=
  ⟨idGen, req.codigo.getD "", req.nombre.getD "", req.precio.getD "",
    req.categoria.getD "",
    req.oferta == some "true" || req.oferta == some "on",
    req.precioPromo.getD "", assetPath req.sucursal f, now⟩

/-- POST /upload/:sucursal handler of part_000 (lines 68-101), composed with
its checkAdmin and multer middlewares in source order.  multer's diskStorage
destination (line 37) joins the upload root with the request's branch and
never creates the directory; only the branches provisioned at startup (the
SUCURSALES loop, lines 26-33) have directories, so an upload carrying a file
part and aimed at any other branch fails with ENOENT inside the middleware
and express answers 500 before the handler (and its branch check) runs,
storing nothing. -/
def createProduct (cfg : Config) (req : CreateReq) (idGen : String) (now : Nat)
    (cat : List Product) : OpResult :=
  if checkAdmin cfg req.adminKey then
    if req.file.isSome && !SUCURSALES.contains req.sucursal then
      ⟨.err 500 "ENOENT", [], cat⟩
    else
      let effs0 := multerEffs req.sucursal req.file
      if SUCURSALES.contains req.sucursal then
        match req.file with
        | none => ⟨.err 400 "Falta imagen", effs0, cat⟩
        | some f =>
          if !truthy req.nombre || !truthy req.precio || !truthy req.categoria ||
              !truthy req.codigo then
            ⟨.err 400 "Faltan datos (nombre, precio, categoría, código)",
              effs0 ++ [Eff.unlinkAsset (assetPath req.sucursal f)], cat⟩
          else
            let codigo := req.codigo.getD ""
            let effs1 := effs0 ++ [Eff.readCatalog req.sucursal]
            if cat.any (fun p => strToLower p.codigo == strToLower codigo) then
              ⟨.err 409 "Código ya existente",
                effs1 ++ [Eff.unlinkAsset (assetPath req.sucursal f)], cat⟩
            else
              let prod := mkProduct req idGen now f
              ⟨.okProduct prod, effs1 ++ [Eff.writeCatalog req.sucursal], cat ++ [prod]⟩
      else ⟨.err 400 "Sucursal inválida", effs0, cat⟩
  else ⟨.err 401 "Admin requerido", [], cat⟩

/-- Update request as parsed by express for PUT /producto/:sucursal/:id. -/
structure UpdateReq where
  sucursal : String
  id : String
  adminKey : Option String
  file : Option String
  nombre : Option String
  precio : Option String
  categoria : Option String
  codigo : Option String
  oferta : Option String
  precioPromo : Option String
  deriving Repr

/-- Replace the first product whose id matches, modelling the in-place
mutation of data.productos[idx] after findIndex (part_000 lines 109, 138). -/
def setFirst (id : String) (newP : Product) : List Product → List Product
  | [] => []
  | p :: ps => if p.id == id then newP :: ps else p :: setFirst id newP ps

/-- PUT /producto/:sucursal/:id handler of part_000 (lines 104-141), composed
with its checkAdmin and multer middlewares in source order.  Note that the
conflict return at line 117 does not unlink a freshly uploaded file.  As with
the create route, an upload carrying a file part and aimed at a branch with
no provisioned directory fails with ENOENT inside the multer middleware and
express answers 500 before the handler runs, storing nothing. -/
def updateProduct (cfg : Config) (req : UpdateReq) (now : Nat)
    (cat : List Product) : OpResult :=
  if checkAdmin cfg req.adminKey then
    if req.file.isSome && !SUCURSALES.contains req.sucursal then
      ⟨.err 500 "ENOENT", [], cat⟩
    else
      let effs0 := multerEffs req.sucursal req.file
      if SUCURSALES.contains req.sucursal then
        let effs1 := effs0 ++ [Eff.readCatalog req.sucursal]
        match cat.find? (fun x => x.id == req.id) with
        | none => ⟨.err 404 "Producto no encontrado", effs1, cat⟩
        | some p =>
          let c := req.codigo.getD ""
          let codigoChange := truthy req.codigo && c != p.codigo
          if codigoChange &&
              cat.any (fun x => x.id != req.id && strToLower x.codigo == strToLower c) then
            ⟨.err 409 "Código ya existente", effs1, cat⟩
          else
            let p1 := if codigoChange then { p with codigo := c } else p
            let p2 := if truthy req.nombre then { p1 with nombre := req.nombre.getD "" } else p1
            let p3 := if truthy req.precio then { p2 with precio := req.precio.getD "" } else p2
            let p4 := if truthy req.categoria then { p3 with categoria := req.categoria.getD "" } else p3
            let p5 := match req.oferta with
              | none => p4
              | some s => { p4 with oferta := s == "true" || s == "on" }
            let p6 := match req.precioPromo with
              | none => p5
              | some s => { p5 with precioPromo := s }
            match req.file with
            | none =>
              let p8 := { p6 with ts := now }
              ⟨.okProduct p8, effs1 ++ [Eff.writeCatalog req.sucursal],
                setFirst req.id p8 cat⟩
            | some f =>
              let p8 := { p6 with img := assetPath req.sucursal f, ts := now }
              ⟨.okProduct p8,
                effs1 ++ [Eff.unlinkAsset p6.img, Eff.writeCatalog req.sucursal],
                setFirst req.id p8 cat⟩
      else ⟨.err 400 "Sucursal inválida", effs0, cat⟩
  else ⟨.err 401 "Admin requerido", [], cat⟩

/-- Remove the first product whose id matches, returning it together with the
remaining list; models findIndex (part_000 line 149) followed by
splice(idx, 1) (part_000 line 153). -/
def spliceFirst (id : String) : List Product → Option (Product × List Product)
  | [] => none
  | p :: ps =>
    if p.id == id then some (p, ps)
    else match spliceFirst id ps with
      | none => none
      | some pr => some (pr.1, p :: pr.2)

/-- DELETE /producto/:sucursal/:id handler of part_000 (lines 143-156),
composed with its checkAdmin middleware. -/
def deleteProduct (cfg : Config) (sucursal id : String) (adminKey : Option String)
    (cat : List Product) : OpResult :=
  if checkAdmin cfg adminKey then
    if SUCURSALES.contains sucursal then
      match spliceFirst id cat with
      | none => ⟨.err 404 "Producto no encontrado", [Eff.readCatalog sucursal], cat⟩
      | some pr =>
        ⟨.okDeleted pr.1,
          [Eff.readCatalog sucursal, Eff.unlinkAsset pr.1.img, Eff.writeCatalog sucursal],
          pr.2⟩
    else ⟨.err 400 "Sucursal inválida", [], cat⟩
  else ⟨.err 401 "Admin requerido", [], cat⟩

/-- GET /productos/:sucursal handler of part_000 (lines 61-65). -/
def getCatalog (sucursal : String) (cat : List Product) : OpResult :=
  if SUCURSALES.contains sucursal then
    ⟨.okCatalog cat, [Eff.readCatalog sucursal], cat⟩
  else ⟨.err 400 "Sucursal inválida", [], cat⟩

/-- CSV cell escaping of part_000 (lines 180-183): wrap in double quotes and
double every internal quote exactly when the value contains a comma, a double
quote or a newline. -/
def csvEscape (v : String) : String :=
  if hasChar v ',' || hasChar v '"' || hasChar v '\n' then
    "\"" ++ strReplaceChar '"' "\"\"" v ++ "\""
  else v

/-- Row projection of part_000 (lines 166-174): cells in header order; oferta
renders as 1 or 0; precio and precio_promo have newlines replaced by spaces. -/
def rowCells (p : Product) : List String :=
  [p.codigo, p.nombre, strReplaceChar '\n' " " p.precio, p.categoria,
    if p.oferta then "1" else "0", strReplaceChar '\n' " " p.precioPromo, p.img]

/-- Fixed CSV column header of part_000 line 176. -/
def csvHeaderCols : List String :=
  ["codigo", "nombre", "precio", "categoria", "oferta", "precio_promo", "imagen"]

/-- CSV rendering of GET /export/:sucursal.csv (part_000 lines 159-189):
optional category filter, header line, then one escaped line per row. -/
def exportCsv (items : List Product) (catq : Option String) : String :=
  let rows :=
    (items.filter (fun p => !truthy catq || p.categoria == catq.getD "")).map
      (fun p => String.intercalate "," ((rowCells p).map csvEscape))
  String.intercalate "\n" (String.intercalate "," csvHeaderCols :: rows)

/-- GET /export/:sucursal.csv handler of part_000 with its branch check. -/
def exportCsvOp (sucursal : String) (catq : Option String)
    (cat : List Product) : OpResult :=
  if SUCURSALES.contains sucursal then
    ⟨.okCsv (exportCsv cat catq), [Eff.readCatalog sucursal], cat⟩
  else ⟨.err 400 "Sucursal inválida", [], cat⟩

/-- Content of a branch snapshot file as the filesystem presents it to a
reader: absent, unreadable or unparsable, or parsed with its productos list. -/
inductive DiskJson where
  | missing
  | corrupt
  | parsed (productos : List Product)
  deriving DecidableEq, Repr

/-- readDb of src/server.js lines 45-50: missing file and parse failure both
yield the empty catalog. -/
def readDb (d : DiskJson) : List Product :=
  match d with
  | .missing => []
  | .corrupt => []
  | .parsed ps => ps

/-- readJson of src/unnamed/part_002 lines 45-53: the try/catch around read
and parse yields the empty catalog on a missing or corrupt file. -/
def readJson_part002 (d : DiskJson) : List Product :=
  match d with
  | .missing => []
  | .corrupt => []
  | .parsed ps => ps

/-- readJson of src/unnamed/part_000 line 47 (identically part_001 line 44):
fs.readFileSync and JSON.parse run with no try/catch, so a missing or corrupt
snapshot throws to the caller instead of producing an empty catalog. -/
def readJson_part000 (d : DiskJson) : Except String (List Product) :=
  match d with
  | .missing => .error "ENOENT"
  | .corrupt => .error "SyntaxError"
  | .parsed ps => .ok ps

/-- REQUIRED_ADMIN_KEY of src/server.js line 57: process.env.ADMIN_KEY or
null, so an absent or empty environment value leaves it null. -/
def requiredAdminKey (env : Option String) : Option String :=
  match env with
  | none => none
  | some s => if s.isEmpty then none else some s

/-- requireAdmin of src/server.js lines 58-66: with a configured key, pass
exactly on equality; with none configured, any non-blank key passes. -/
def requireAdmin (rq : Option String) (header : Option String) : Bool :=
  let key := header.getD ""
  match rq with
  | some rk => if rk.isEmpty then !(key.trim == "") else key == rk
  | none => !(key.trim == "")

/-- Character class [a-z0-9_-] of the safeBranch regex (src/server.js line
35), stated on code points. -/
def isSafeChar (c : Char) : Bool :=
  (97 ≤ c.toNat && c.toNat ≤ 122) || (48 ≤ c.toNat && c.toNat ≤ 57) ||
    c.toNat == 95 || c.toNat == 45

/-- Replace each maximal run of characters outside [a-z0-9_-] with a single
underscore, modelling replace(/[^a-z0-9_-]+/g, "_"); the flag records whether
the previous character was part of such a run. -/
def collapseUnsafe : Bool → List Char → List Char
  | _, [] => []
  | prevUnsafe, c :: cs =>
    if isSafeChar c then c :: collapseUnsafe false cs
    else if prevUnsafe then collapseUnsafe true cs
    else '_' :: collapseUnsafe true cs

/-- safeBranch of src/server.js lines 34-36 on the character list of the
input: lower-case, then collapse every run of unsafe characters to one
underscore. -/
def safeBranch (b : List Char) : List Char :=
  collapseUnsafe false (b.map Char.toLower)

/-- Predicate satisfied by effect traces that only store uploaded assets and
never read or write a catalog nor unlink anything. -/
def isStoreEff : Eff → Bool
  | .storeAsset _ => true
  | _ => false

/-- Sample configuration with the default ADMIN_KEY of part_000 line 20. -/
def sampleCfg : Config := ⟨"yolanda2025"⟩

/-- Sample product of branch central with codigo A1. -/
def prodA : Product :=
  ⟨"p1", "A1", "Gafas", "100", "dama", false, "", "/uploads/central/a.jpg", 0⟩

/-- Sample product of branch central with codigo B2. -/
def prodB : Product :=
  ⟨"p2", "B2", "Lentes", "200", "caballero", false, "", "/uploads/central/b.jpg", 0⟩

/-- Sample two-product catalog of branch central. -/
def sampleCat : List Product := [prodA, prodB]

/-- Product whose nombre holds a comma and inner double quotes. -/
def rayProd : Product :=
  ⟨"id1", "R1", "Ray, \"Special\"", "100", "dama", false, "", "/uploads/central/x.jpg", 0⟩

/-- Product whose precio holds a newline. -/
def nlProd : Product :=
  ⟨"id2", "P1", "N", "1\n2", "dama", false, "", "/i.jpg", 0⟩

/-- Well-formed create request aimed at the unknown branch bad, carrying an
uploaded image. -/
def badCreateReq : CreateReq :=
  ⟨"bad", some "yolanda2025", some "x.jpg", some "Gafas", some "100", some "dama",
    some "A1", none, none⟩

/-- Create request aimed at the unknown branch bad with no file part. -/
def badCreateNoFile : CreateReq :=
  ⟨"bad", some "yolanda2025", none, some "Gafas", some "100", some "dama",
    some "A1", none, none⟩

/-- Update request for p2 of branch central that uploads a new image and asks
for codigo a1, which collides case-insensitively with prodA. -/
def conflictUpd : UpdateReq :=
  ⟨"central", "p2", some "yolanda2025", some "new.jpg", none, none, none, some "a1",
    none, none⟩

/-- Update request for p1 of branch central that uploads a new image and asks
for codigo b2, which collides case-insensitively with prodB. -/
def orphanUpd : UpdateReq :=
  ⟨"central", "p1", some "yolanda2025", some "nueva.jpg", none, none, none, some "b2",
    none, none⟩

/-- Create request for branch central whose nombre is the empty string. -/
def missingFieldsCreate : CreateReq :=
  ⟨"central", some "yolanda2025", some "m.jpg", some "", some "100", some "dama",
    some "Z9", none, none⟩

/-- Create request for branch central with codigo A1. -/
def createReqA : CreateReq :=
  ⟨"central", some "yolanda2025", some "a.jpg", some "Gafas", some "100", some "dama",
    some "A1", none, none⟩

/-- Second create request for branch central with codigo a1, colliding
case-insensitively with createReqA. -/
def createReqA2 : CreateReq :=
  ⟨"central", some "yolanda2025", some "b.jpg", some "Gafas 2", some "150", some "dama",
    some "a1", none, none⟩

/-- Update request for p1 of branch central supplying the empty string for all
four guarded text fields. -/
def emptyFieldsUpd : UpdateReq :=
  ⟨"central", "p1", some "yolanda2025", none, some "", some "", some "", some "",
    none, none⟩

theorem toLower_of_safe (c : Char) (h : isSafeChar c = true) : Char.toLower c = c := by
  simp only [isSafeChar, Bool.or_eq_true, Bool.and_eq_true, decide_eq_true_eq,
    Nat.beq_eq_true_eq] at h
  unfold Char.toLower
  rw [if_neg (by omega)]

theorem safe_underscore : isSafeChar '_' = true := by decide

theorem collapse_mem_safe (l : List Char) :
    ∀ prev c, c ∈ collapseUnsafe prev l → isSafeChar c = true := by
  induction l with
  | nil => intro prev c h; simp [collapseUnsafe] at h
  | cons a as ih =>
    intro prev c h
    by_cases hs : isSafeChar a = true
    · simp only [collapseUnsafe, hs, if_pos] at h
      rcases List.mem_cons.mp h with h1 | h2
      · exact h1 ▸ hs
      · exact ih false c h2
    · simp only [collapseUnsafe, hs, if_neg, Bool.not_eq_true] at h
      cases prev with
      | true => simpa using ih true c (by simpa [hs] using h)
      | false =>
        rcases List.mem_cons.mp (by simpa [hs] using h) with h1 | h2
        · exact h1 ▸ safe_underscore
        · exact ih true c h2

theorem collapse_of_safe (l : List Char) (h : ∀ c ∈ l, isSafeChar c = true) :
    collapseUnsafe false l = l := by
  induction l with
  | nil => rfl
  | cons a as ih =>
    have ha : isSafeChar a = true := h a (List.mem_cons_self a as)
    simp only [collapseUnsafe, ha, if_pos]
    exact congrArg (a :: ·) (ih fun c hc => h c (List.mem_cons_of_mem a hc))

theorem map_toLower_of_safe (l : List Char) (h : ∀ c ∈ l, isSafeChar c = true) :
    l.map Char.toLower = l := by
  have h2 : l.map Char.toLower = l.map id := by
    apply List.map_congr_left
    intro a ha
    exact toLower_of_safe a (h a ha)
  simpa using h2

/-- C10: branch-identifier normalization is idempotent: for every input
character sequence b, safeBranch (safeBranch b) equals safeBranch b, so a
normalized branch name maps to itself and never yields a second location. -/
theorem C10_safeBranch_idempotent (b : List Char) :
    safeBranch (safeBranch b) = safeBranch b := by
  unfold safeBranch
  rw [map_toLower_of_safe _ (fun c hc => collapse_mem_safe _ false c hc)]
  exact collapse_of_safe _ (fun c hc => collapse_mem_safe _ false c hc)

theorem spliceFirst_eq (id : String) (l1 l2 : List Product) (p : Product)
    (hp : p.id = id) (hl1 : ∀ q ∈ l1, q.id ≠ id) :
    spliceFirst id (l1 ++ p :: l2) = some (p, l1 ++ l2) := by
  induction l1 with
  | nil => simp [spliceFirst, hp]
  | cons a as ih =>
    have ha : a.id ≠ id := hl1 a (List.mem_cons_self a as)
    simp only [List.cons_append, spliceFirst, List.append_eq]
    rw [if_neg (by simp [ha]), ih (fun q hq => hl1 q (List.mem_cons_of_mem a hq))]

/-- C9: deleting an existing id removes exactly the first product whose id
matches from the persisted catalog; every other product survives in its
relative order, and the removed asset is unlinked. -/
theorem C9_delete_exact (cfg : Config) (suc id : String) (k : Option String)
    (l1 l2 : List Product) (p : Product)
    (hadm : checkAdmin cfg k = true) (hsuc : SUCURSALES.contains suc = true)
    (hp : p.id = id) (hl1 : ∀ q ∈ l1, q.id ≠ id) :
    deleteProduct cfg suc id k (l1 ++ p :: l2) =
      ⟨.okDeleted p,
        [Eff.readCatalog suc, Eff.unlinkAsset p.img, Eff.writeCatalog suc],
        l1 ++ l2⟩ := by
  have hsuc' : suc ∈ SUCURSALES := by simpa using hsuc
  simp [deleteProduct, hadm, hsuc', spliceFirst_eq id l1 l2 p hp hl1]

theorem C9_delete_exact_witness :
    deleteProduct sampleCfg "central" "p2" (some "yolanda2025") ([prodA] ++ prodB :: []) =
      ⟨.okDeleted prodB,
        [Eff.readCatalog "central", Eff.unlinkAsset prodB.img, Eff.writeCatalog "central"],
        [prodA] ++ []⟩ :=
  C9_delete_exact sampleCfg "central" "p2" (some "yolanda2025") [prodA] [] prodB
    (by decide) (by decide) (by decide) (by decide)

/-- C7: an update whose codigo is absent, empty, or equal to the current
codigo of the addressed product never fails with the duplicate-code conflict,
so a self-conflict cannot occur. -/
theorem C7_no_self_conflict (cfg : Config) (req : UpdateReq) (now : Nat)
    (cat : List Product)
    (h : ∀ p, cat.find? (fun x => x.id == req.id) = some p →
      truthy req.codigo = false ∨ req.codigo = some p.codigo) :
    ∀ m, (updateProduct cfg req now cat).resp ≠ Resp.err 409 m := by
  intro m
  by_cases hadm : checkAdmin cfg req.adminKey = true
  · by_cases hsuc : req.sucursal ∈ SUCURSALES
    · cases hfind : cat.find? (fun x => x.id == req.id) with
      | none => simp [updateProduct, hadm, hsuc, hfind]
      | some p =>
        have hchange : (truthy req.codigo && (req.codigo.getD "" != p.codigo)) = false := by
          rcases h p hfind with hf | he
          · simp [hf]
          · simp [he]
        cases hfile : req.file with
        | none => simp [updateProduct, hadm, hsuc, hfind, hchange, hfile]
        | some f => simp [updateProduct, hadm, hsuc, hfind, hchange, hfile]
    · cases hfile : req.file with
      | none => simp [updateProduct, hadm, hsuc, hfile]
      | some f => simp [updateProduct, hadm, hsuc, hfile]
  · have hadm' : checkAdmin cfg req.adminKey = false := by simpa using hadm
    simp [updateProduct, hadm']

theorem C7_no_self_conflict_witness :
    (updateProduct sampleCfg
        ⟨"central", "p1", some "yolanda2025", none, some "Gafas Sol", none, none,
          some "A1", none, none⟩ 9 sampleCat).resp ≠
      Resp.err 409 "Código ya existente" :=
  C7_no_self_conflict sampleCfg
    ⟨"central", "p1", some "yolanda2025", none, some "Gafas Sol", none, none,
      some "A1", none, none⟩ 9 sampleCat
    (by
      intro p hp
      have hfind : sampleCat.find? (fun x => x.id == "p1") = some prodA := by decide
      rw [hfind, Option.some_inj] at hp
      subst hp
      exact Or.inr rfl)
    "Código ya existente"

/-- C4: an update that changes codigo re-checks uniqueness case-insensitively
against all other products before applying anything; on a conflict the whole
update aborts with the 409 conflict response, the persisted catalog is
unchanged and no write effect occurs. -/
theorem C4_update_conflict_aborts (cfg : Config) (req : UpdateReq) (now : Nat)
    (cat : List Product) (p : Product) (c : String)
    (hadm : checkAdmin cfg req.adminKey = true)
    (hsuc : req.sucursal ∈ SUCURSALES)
    (hfind : cat.find? (fun x => x.id == req.id) = some p)
    (hcod : req.codigo = some c) (hne : c ≠ "") (hdiff : c ≠ p.codigo)
    (hconf : cat.any
      (fun x => x.id != req.id && strToLower x.codigo == strToLower c) = true) :
    updateProduct cfg req now cat =
      ⟨.err 409 "Código ya existente",
        multerEffs req.sucursal req.file ++ [Eff.readCatalog req.sucursal], cat⟩ := by
  have hie : c.isEmpty = false := by
    cases hc : c.isEmpty
    · rfl
    · exact absurd ((String.isEmpty_iff c).mp hc) hne
  have htc : truthy (some c) = true := by simp [truthy, hie]
  simp [updateProduct, hadm, hsuc, hfind, hcod, htc, hdiff, hconf]

theorem C4_update_conflict_witness :
    updateProduct sampleCfg conflictUpd 5 sampleCat =
      ⟨.err 409 "Código ya existente",
        multerEffs conflictUpd.sucursal conflictUpd.file ++
          [Eff.readCatalog conflictUpd.sucursal],
        sampleCat⟩ :=
  C4_update_conflict_aborts sampleCfg conflictUpd 5 sampleCat prodB "a1"
    (by decide) (by decide) (by decide) rfl (by decide) (by decide) (by decide)

/-- C8: an update request supplying the empty string for nombre, precio,
categoria or codigo leaves that field of the product unchanged, each field
independently of the others: whenever the operation answers with an updated
product, an empty-string nombre, precio, categoria or codigo in the request
implies the corresponding field of the answered product equals the field of
the addressed product, so an update can never clear one of these required
fields to empty. -/
theorem C8_empty_fields_unchanged (cfg : Config) (req : UpdateReq) (now : Nat)
    (cat : List Product) (p q : Product)
    (hfind : cat.find? (fun x => x.id == req.id) = some p)
    (hresp : (updateProduct cfg req now cat).resp = Resp.okProduct q) :
    (req.nombre = some "" → q.nombre = p.nombre) ∧
    (req.precio = some "" → q.precio = p.precio) ∧
    (req.categoria = some "" → q.categoria = p.categoria) ∧
    (req.codigo = some "" → q.codigo = p.codigo) := by
  have htr : truthy (some "") = false := rfl
  by_cases hadm : checkAdmin cfg req.adminKey = true
  · by_cases hsuc : req.sucursal ∈ SUCURSALES
    · by_cases hcc : ((truthy req.codigo && (req.codigo.getD "" != p.codigo)) &&
          cat.any (fun x => x.id != req.id &&
            strToLower x.codigo == strToLower (req.codigo.getD ""))) = true
      · simp [updateProduct, hadm, hsuc, hfind, hcc] at hresp
      · simp only [Bool.not_eq_true] at hcc
        refine ⟨?_, ?_, ?_, ?_⟩ <;> intro he <;>
          cases hof : req.oferta <;> cases hpp : req.precioPromo <;>
          cases hfile : req.file <;>
        · simp [updateProduct, hadm, hsuc, hfind, hcc, hof, hpp, hfile, he, htr] at hresp
          subst hresp
          first
          | rfl
          | (split_ifs <;> rfl)
    · cases hfile : req.file with
      | none => simp [updateProduct, hadm, hsuc, hfile] at hresp
      | some f => simp [updateProduct, hadm, hsuc, hfile] at hresp
  · have hadm2 : checkAdmin cfg req.adminKey = false := by simpa using hadm
    simp [updateProduct, hadm2] at hresp

theorem C8_empty_fields_witness :
    (updateProduct sampleCfg emptyFieldsUpd 11 sampleCat).resp =
      Resp.okProduct { prodA with ts := 11 } ∧
    ({ prodA with ts := 11 } : Product).nombre = prodA.nombre ∧
    ({ prodA with ts := 11 } : Product).precio = prodA.precio ∧
    ({ prodA with ts := 11 } : Product).categoria = prodA.categoria ∧
    ({ prodA with ts := 11 } : Product).codigo = prodA.codigo :=
  have h := C8_empty_fields_unchanged sampleCfg emptyFieldsUpd 11 sampleCat prodA
    { prodA with ts := 11 } (by decide) (by decide)
  ⟨by decide, h.1 rfl, h.2.1 rfl, h.2.2.1 rfl, h.2.2.2 rfl⟩

/-- C1 counterexample: a create request for the unknown branch bad that
carries an uploaded image is not answered with the 400 invalid-branch error:
the multer middleware's write fails with ENOENT (the branch directory does
not exist and diskStorage never creates it), express answers 500 from the
middleware, no file is stored and the handler's branch check never runs. -/
theorem C1_create_invalid_branch_enoent :
    createProduct sampleCfg badCreateReq "id1" 0 [] =
      ⟨Resp.err 500 "ENOENT", [], []⟩ ∧
    (createProduct sampleCfg badCreateReq "id1" 0 []).resp ≠
      Resp.err 400 "Sucursal inválida" := by
  decide

/-- C1 amended: for every branch outside the allowed set, GetCatalog, Export,
Delete (after its admin gate) and any Create or Update without an uploaded
image return the 400 invalid-branch error with no filesystem effect and the
catalog unchanged; a Create or Update carrying an uploaded image instead
fails inside the upload middleware with a 500 ENOENT error, because the
branch directory does not exist and is never created, again performing no
effect and leaving the catalog unchanged. -/
theorem C1_invalid_branch_amended (cfg : Config) (suc : String)
    (hsuc : suc ∉ SUCURSALES) :
    (∀ cat, getCatalog suc cat = ⟨.err 400 "Sucursal inválida", [], cat⟩) ∧
    (∀ q cat, exportCsvOp suc q cat = ⟨.err 400 "Sucursal inválida", [], cat⟩) ∧
    (∀ id k cat, checkAdmin cfg k = true →
      deleteProduct cfg suc id k cat = ⟨.err 400 "Sucursal inválida", [], cat⟩) ∧
    (∀ req idGen now cat, req.sucursal = suc → checkAdmin cfg req.adminKey = true →
      (req.file = none →
        createProduct cfg req idGen now cat = ⟨.err 400 "Sucursal inválida", [], cat⟩) ∧
      (req.file.isSome = true →
        createProduct cfg req idGen now cat = ⟨.err 500 "ENOENT", [], cat⟩)) ∧
    (∀ req now cat, req.sucursal = suc → checkAdmin cfg req.adminKey = true →
      (req.file = none →
        updateProduct cfg req now cat = ⟨.err 400 "Sucursal inválida", [], cat⟩) ∧
      (req.file.isSome = true →
        updateProduct cfg req now cat = ⟨.err 500 "ENOENT", [], cat⟩)) := by
  refine ⟨?_, ?_, ?_, ?_, ?_⟩
  · intro cat
    simp [getCatalog, hsuc]
  · intro q cat
    simp [exportCsvOp, hsuc]
  · intro id k cat hadm
    simp [deleteProduct, hadm, hsuc]
  · intro req idGen now cat hreq hadm
    subst hreq
    constructor
    · intro hf
      simp [createProduct, hadm, hsuc, hf, multerEffs]
    · intro hf
      simp [createProduct, hadm, hsuc, hf]
  · intro req now cat hreq hadm
    subst hreq
    constructor
    · intro hf
      simp [updateProduct, hadm, hsuc, hf, multerEffs]
    · intro hf
      simp [updateProduct, hadm, hsuc, hf]

theorem C1_invalid_branch_witness :
    (createProduct sampleCfg badCreateNoFile "id9" 0 [] =
      ⟨Resp.err 400 "Sucursal inválida", [], []⟩) ∧
    (createProduct sampleCfg badCreateReq "id9" 0 [] =
      ⟨Resp.err 500 "ENOENT", [], []⟩) :=
  have h := (C1_invalid_branch_amended sampleCfg "bad" (by decide))
  ⟨(h.2.2.2.1 badCreateNoFile "id9" 0 [] rfl (by decide)).1 rfl,
   (h.2.2.2.1 badCreateReq "id9" 0 [] rfl (by decide)).2 rfl⟩

theorem adminKeyOf_not_empty (env : Option String) : (adminKeyOf env).isEmpty = false := by
  cases env with
  | none => rfl
  | some s =>
    by_cases hs : s.isEmpty = true
    · simp only [adminKeyOf, hs, if_true]
      rfl
    · simp only [Bool.not_eq_true] at hs
      simp [adminKeyOf, hs]

/-- C3: every mutating operation proceeds exactly when the provided key
equals the configured secret: part_000's checkAdmin accepts exactly the
configured ADMIN_KEY (which is never empty), server.js's requireAdmin with a
configured key accepts exactly that key, and a failed check returns 401 with
no filesystem effect and the catalog unchanged for create, update and
delete. -/
theorem C3_admin_gate :
    (∀ env k, checkAdmin ⟨adminKeyOf env⟩ k = true ↔ k = some (adminKeyOf env)) ∧
    (∀ env rk h, requiredAdminKey env = some rk →
      (requireAdmin (requiredAdminKey env) h = true ↔ h.getD "" = rk)) ∧
    (∀ cfg req idGen now cat, checkAdmin cfg req.adminKey = false →
      createProduct cfg req idGen now cat = ⟨.err 401 "Admin requerido", [], cat⟩) ∧
    (∀ cfg req now cat, checkAdmin cfg req.adminKey = false →
      updateProduct cfg req now cat = ⟨.err 401 "Admin requerido", [], cat⟩) ∧
    (∀ cfg suc id k cat, checkAdmin cfg k = false →
      deleteProduct cfg suc id k cat = ⟨.err 401 "Admin requerido", [], cat⟩) := by
  refine ⟨?_, ?_, ?_, ?_, ?_⟩
  · intro env k
    have hne : (adminKeyOf env).isEmpty = false := adminKeyOf_not_empty env
    cases k with
    | none => simp [checkAdmin]
    | some s =>
      by_cases hs : s.isEmpty = true
      · have : s = "" := (String.isEmpty_iff s).mp hs
        subst this
        have hno : ¬("" = adminKeyOf env) := by
          intro h
          rw [← h] at hne
          exact absurd hne (by decide)
        have hemp : ("" : String).isEmpty = true := rfl
        simp [checkAdmin, hemp, hno]
      · simp only [Bool.not_eq_true] at hs
        simp [checkAdmin, hs]
  · intro env rk h hreq
    cases env with
    | none => simp [requiredAdminKey] at hreq
    | some s =>
      by_cases hs : s.isEmpty = true
      · simp [requiredAdminKey, hs] at hreq
      · simp only [Bool.not_eq_true] at hs
        have hrk : rk = s := by simpa [requiredAdminKey, hs] using hreq.symm
        subst hrk
        simp [requireAdmin, requiredAdminKey, hs]
  · intro cfg req idGen now cat hadm
    simp [createProduct, hadm]
  · intro cfg req now cat hadm
    simp [updateProduct, hadm]
  · intro cfg suc id k cat hadm
    simp [deleteProduct, hadm]

theorem C3_admin_gate_witness :
    checkAdmin ⟨adminKeyOf none⟩ (some (adminKeyOf none)) = true ∧
    requireAdmin (requiredAdminKey (some "secreto")) (some "secreto") = true :=
  ⟨(C3_admin_gate.1 none (some (adminKeyOf none))).mpr rfl,
   (C3_admin_gate.2.1 (some "secreto") "secreto" (some "secreto") rfl).mpr rfl⟩

/-- C2 counterexample: an update of p1 that uploads a new image and asks for
the conflicting codigo b2 is rejected with 409, yet its effect trace holds
the store of the new image and no unlink: the just-stored asset is orphaned,
contradicting the claim that every rejected request cleans up its asset. -/
theorem C2_update_conflict_orphan :
    (updateProduct sampleCfg orphanUpd 7 sampleCat).resp =
      Resp.err 409 "Código ya existente" ∧
    (updateProduct sampleCfg orphanUpd 7 sampleCat).effects =
      [Eff.storeAsset "/uploads/central/nueva.jpg", Eff.readCatalog "central"] := by
  decide

/-- C2 amended: create requests do clean up: a create rejected for missing
fields or for a duplicate codigo (case-insensitive) after its image was
stored unlinks that image before returning, and of two creates with the same
codigo in one branch only the first succeeds, the second ending 409 with its
asset removed and the catalog unchanged; an update rejected with the 409
conflict, however, keeps its just-stored new image (no unlink in its trace). -/
theorem C2_cleanup_amended :
    (∀ (cfg : Config) (req : CreateReq) (idGen : String) (now : Nat)
        (cat : List Product) (f : String),
      checkAdmin cfg req.adminKey = true → req.sucursal ∈ SUCURSALES →
      req.file = some f →
      (!truthy req.nombre || !truthy req.precio || !truthy req.categoria ||
        !truthy req.codigo) = true →
      createProduct cfg req idGen now cat =
        ⟨.err 400 "Faltan datos (nombre, precio, categoría, código)",
          [Eff.storeAsset (assetPath req.sucursal f),
            Eff.unlinkAsset (assetPath req.sucursal f)], cat⟩) ∧
    (∀ (cfg : Config) (req : CreateReq) (idGen : String) (now : Nat)
        (cat : List Product) (f : String),
      checkAdmin cfg req.adminKey = true → req.sucursal ∈ SUCURSALES →
      req.file = some f →
      (!truthy req.nombre || !truthy req.precio || !truthy req.categoria ||
        !truthy req.codigo) = false →
      cat.any (fun p => strToLower p.codigo == strToLower (req.codigo.getD "")) = true →
      createProduct cfg req idGen now cat =
        ⟨.err 409 "Código ya existente",
          [Eff.storeAsset (assetPath req.sucursal f), Eff.readCatalog req.sucursal,
            Eff.unlinkAsset (assetPath req.sucursal f)], cat⟩) ∧
    (∀ (cfg : Config) (r1 r2 : CreateReq) (id1 id2 : String) (t1 t2 : Nat)
        (cat : List Product) (f1 f2 : String),
      checkAdmin cfg r1.adminKey = true → r1.sucursal ∈ SUCURSALES →
      r1.file = some f1 →
      (!truthy r1.nombre || !truthy r1.precio || !truthy r1.categoria ||
        !truthy r1.codigo) = false →
      cat.any (fun p => strToLower p.codigo == strToLower (r1.codigo.getD "")) = false →
      checkAdmin cfg r2.adminKey = true → r2.sucursal = r1.sucursal →
      r2.file = some f2 →
      (!truthy r2.nombre || !truthy r2.precio || !truthy r2.categoria ||
        !truthy r2.codigo) = false →
      strToLower (r2.codigo.getD "") = strToLower (r1.codigo.getD "") →
      (createProduct cfg r1 id1 t1 cat).resp =
        Resp.okProduct (mkProduct r1 id1 t1 f1) ∧
      createProduct cfg r2 id2 t2 (createProduct cfg r1 id1 t1 cat).catalog =
        ⟨.err 409 "Código ya existente",
          [Eff.storeAsset (assetPath r2.sucursal f2), Eff.readCatalog r2.sucursal,
            Eff.unlinkAsset (assetPath r2.sucursal f2)],
          (createProduct cfg r1 id1 t1 cat).catalog⟩) ∧
    (∀ (cfg : Config) (req : UpdateReq) (now : Nat) (cat : List Product)
        (f : String) (m : String),
      req.file = some f →
      (updateProduct cfg req now cat).resp = Resp.err 409 m →
      (updateProduct cfg req now cat).effects =
        [Eff.storeAsset (assetPath req.sucursal f), Eff.readCatalog req.sucursal]) := by
  refine ⟨?_, ?_, ?_, ?_⟩
  · intro cfg req idGen now cat f hadm hsuc hfile hmiss
    simp [createProduct, hadm, hsuc, hfile, hmiss, multerEffs]
  · intro cfg req idGen now cat f hadm hsuc hfile hmiss hconf
    simp [createProduct, hadm, hsuc, hfile, hmiss, hconf, multerEffs]
  · intro cfg r1 r2 id1 id2 t1 t2 cat f1 f2 hadm1 hsuc1 hfile1 hmiss1 hnc
      hadm2 hsuceq hfile2 hmiss2 hcodeq
    have h1 : createProduct cfg r1 id1 t1 cat =
        ⟨.okProduct (mkProduct r1 id1 t1 f1),
          [Eff.storeAsset (assetPath r1.sucursal f1), Eff.readCatalog r1.sucursal,
            Eff.writeCatalog r1.sucursal],
          cat ++ [mkProduct r1 id1 t1 f1]⟩ := by
      simp [createProduct, hadm1, hsuc1, hfile1, hmiss1, hnc, multerEffs]
    refine ⟨by rw [h1], ?_⟩
    rw [h1]
    have hconf2 : (cat ++ [mkProduct r1 id1 t1 f1]).any
        (fun p => strToLower p.codigo == strToLower (r2.codigo.getD "")) = true := by
      rw [List.any_append]
      have : strToLower (mkProduct r1 id1 t1 f1).codigo =
          strToLower (r2.codigo.getD "") := by
        rw [hcodeq]
        rfl
      simp [this]
    simp [createProduct, hadm2, hsuceq, hsuc1, hfile2, hmiss2, hconf2, multerEffs]
  · intro cfg req now cat f m hfile hresp
    by_cases hadm : checkAdmin cfg req.adminKey = true
    · by_cases hsuc : req.sucursal ∈ SUCURSALES
      · cases hfind : cat.find? (fun x => x.id == req.id) with
        | none => simp [updateProduct, hadm, hsuc, hfind] at hresp
        | some p =>
          by_cases hcc : ((truthy req.codigo && (req.codigo.getD "" != p.codigo)) &&
              cat.any (fun x => x.id != req.id &&
                strToLower x.codigo == strToLower (req.codigo.getD ""))) = true
          · simp [updateProduct, hadm, hsuc, hfind, hcc, hfile, multerEffs]
          · simp only [Bool.not_eq_true] at hcc
            simp [updateProduct, hadm, hsuc, hfind, hcc, hfile] at hresp
      · simp [updateProduct, hadm, hsuc, hfile] at hresp
    · simp [updateProduct, hadm] at hresp

theorem C2_cleanup_witness :
    (createProduct sampleCfg createReqA "i1" 1 []).resp =
      Resp.okProduct (mkProduct createReqA "i1" 1 "a.jpg") ∧
    createProduct sampleCfg createReqA2 "i2" 2 (createProduct sampleCfg createReqA "i1" 1 []).catalog =
      ⟨Resp.err 409 "Código ya existente",
        [Eff.storeAsset (assetPath createReqA2.sucursal "b.jpg"),
          Eff.readCatalog createReqA2.sucursal,
          Eff.unlinkAsset (assetPath createReqA2.sucursal "b.jpg")],
        (createProduct sampleCfg createReqA "i1" 1 []).catalog⟩ :=
  C2_cleanup_amended.2.2.1 sampleCfg createReqA createReqA2 "i1" "i2" 1 2 [] "a.jpg" "b.jpg"
    (by decide) (by decide) rfl (by decide) (by decide) (by decide) rfl rfl (by decide)
    (by decide)

/-- C5 counterexample: the precio field of nlProd holds a newline, yet the
exported CSV renders its cell as 1 2 with no double quote anywhere in the
output: the newline was replaced by a space instead of triggering quoting,
so not every field value containing a newline is wrapped in double quotes. -/
theorem C5_precio_newline_unquoted :
    hasChar nlProd.precio '\n' = true ∧
    exportCsv [nlProd] none =
      "codigo,nombre,precio,categoria,oferta,precio_promo,imagen\nP1,N,1 2,dama,0,,/i.jpg" ∧
    hasChar (exportCsv [nlProd] none) '"' = false := by
  decide

/-- C5 amended: CSV export renders the fixed header, the oferta cell as 1 or
0, and RFC-4180 quoting of each rendered cell value (wrapped in double quotes
with inner quotes doubled exactly when the value holds a comma, quote or
newline); however precio and precio_promo have newlines replaced by spaces
before quoting, so a newline in those two fields renders as a space in an
unquoted cell.  The nombre value Ray, "Special" renders as the claimed cell. -/
theorem C5_csv_amended :
    (∀ v, (hasChar v ',' || hasChar v '"' || hasChar v '\n') = true →
      csvEscape v = "\"" ++ strReplaceChar '"' "\"\"" v ++ "\"") ∧
    (∀ v, (hasChar v ',' || hasChar v '"' || hasChar v '\n') = false →
      csvEscape v = v) ∧
    (∀ p, rowCells p = [p.codigo, p.nombre, strReplaceChar '\n' " " p.precio,
      p.categoria, if p.oferta then "1" else "0",
      strReplaceChar '\n' " " p.precioPromo, p.img]) ∧
    (∀ items, exportCsv items none =
      String.intercalate "\n" (String.intercalate "," csvHeaderCols ::
        items.map (fun p => String.intercalate "," ((rowCells p).map csvEscape)))) ∧
    exportCsv [rayProd] none =
      "codigo,nombre,precio,categoria,oferta,precio_promo,imagen\nR1,\"Ray, \"\"Special\"\"\",100,dama,0,,/uploads/central/x.jpg" := by
  refine ⟨?_, ?_, fun p => rfl, ?_, by decide⟩
  · intro v h
    simp [csvEscape, h]
  · intro v h
    simp only [csvEscape, h]
    rfl
  · intro items
    simp [exportCsv, truthy]

theorem C5_csv_witness :
    csvEscape "a,b" = "\"" ++ strReplaceChar '"' "\"\"" "a,b" ++ "\"" :=
  C5_csv_amended.1 "a,b" (by decide)

/-- C6 counterexample: part_000's readJson (line 47, identically part_001
line 44) propagates the parse failure of a corrupt snapshot to the caller
instead of returning an empty catalog. -/
theorem C6_part000_corrupt_fails :
    readJson_part000 DiskJson.corrupt = Except.error "SyntaxError" := rfl

/-- C6 amended: server.js's readDb and part_002's readJson return the empty
catalog when the snapshot file is missing or its content is corrupt, and the
parsed content otherwise; part_000's and part_001's readJson instead fail the
caller with the read or parse error in those two situations. -/
theorem C6_load_amended :
    readDb DiskJson.missing = [] ∧ readDb DiskJson.corrupt = [] ∧
    readJson_part002 DiskJson.missing = [] ∧ readJson_part002 DiskJson.corrupt = [] ∧
    (∀ ps, readDb (DiskJson.parsed ps) = ps) ∧
    (∀ ps, readJson_part002 (DiskJson.parsed ps) = ps) ∧
    readJson_part000 DiskJson.missing = Except.error "ENOENT" ∧
    readJson_part000 DiskJson.corrupt = Except.error "SyntaxError" :=
  ⟨rfl, rfl, rfl, rfl, fun _ => rfl, fun _ => rfl, rfl, rfl⟩
